import Mathlib

/-!
Shallow embedding of `src/problem1/src/main.cpp`: a student-record pipeline.

The program (a) generates `NUM_STUDENTS` students through a retrying
stochastic generator and (b) runs the resulting collection through an
ordered sequence of processing steps sharing one mutable vector.

Modelling conventions:
- `double` scores are modelled as `ℚ`. Every comparison and arithmetic
  operation the claims touch is exact at the concrete values involved, so
  no rounding behaviour of binary floating point is observable there.
- Randomness is modelled by passing the drawn values explicitly: each draw
  is a pair `(score sample, error_injector sample)`; the C++ engine state
  becomes a list of such pairs consumed in order.
- Each `std::println` call becomes one `String` appended to an output list
  (the string is the formatted payload of that single call, a leading
  embedded newline included where the source has one).
- `{:.Nf}` formatting is modelled by `fmtFixed` with round-half-up on the
  exact rational; the concrete values in this development are never ties,
  so the half-even behaviour of C++ formatting cannot be distinguished.
-/

namespace Problem1

/-- A student record: `struct Student { int id; double score; }`. -/
structure Student where
  id : Int
  score : ℚ
deriving DecidableEq, Repr

def NUM_STUDENTS : Nat := 30

def MAX_SCORE : ℚ := 100

def MIN_SCORE : ℚ := 0

def PASS_THRESHOLD : ℚ := 60

def EXCELLENT_THRESHOLD : ℚ := 85

def SCORE_MEAN_CENTER : ℚ := 70

def SCORE_STD_DEV : ℚ := 30

/-- The two generation-time failure kinds. The source carries them as the
two distinct message strings built at `main.cpp:48` and `main.cpp:51-53`;
this inductive keeps that distinction and the data the out-of-range message
embeds (the offending value and the bounds). -/
inductive GenerationError where
  | injected
  | outOfRange (value lo hi : ℚ)
deriving DecidableEq, Repr

/-- `generate_single_student` (`main.cpp:40-56`). `generated_score` is the
value drawn from the normal distribution; `error_draw` is the value drawn
by `error_injector` (uniform over `1..20`), and injection triggers exactly
when it equals 1. -/
def generate_single_student (student_id : Int) (generated_score : ℚ)
    (error_draw : Nat) : Except GenerationError Student :=
  if error_draw = 1 then
    Except.error GenerationError.injected
  else if generated_score < MIN_SCORE ∨ generated_score > MAX_SCORE then
    Except.error (GenerationError.outOfRange generated_score MIN_SCORE MAX_SCORE)
  else
    Except.ok { id := student_id, score := generated_score }

/-- One retry loop of the dataset builder (`main.cpp:175-187`): keep
drawing until `generate_single_student` succeeds, returning the student and
the draws not yet consumed. `none` models exhausting the supplied draws
(the source blocks forever instead; the draw list is the fuel). -/
def retry_generate (target_id : Int) :
    List (ℚ × Nat) → Option (Student × List (ℚ × Nat))
  | [] => none
  | d :: rest =>
    match generate_single_student target_id d.1 d.2 with
    | Except.ok s => some (s, rest)
    | Except.error _ => retry_generate target_id rest

/-- The generation loop of `main` (`main.cpp:171-188`), generalised over the
remaining count and the next target id (`target_id = current_id_index + 1`). -/
def build_aux : Nat → Int → List (ℚ × Nat) → Option (List Student)
  | 0, _, _ => some []
  | n + 1, next_id, draws =>
    match retry_generate next_id draws with
    | none => none
    | some (s, rest) =>
      match build_aux n (next_id + 1) rest with
      | none => none
      | some tl => some (s :: tl)

/-- The dataset builder: drive the generator until `count` students exist,
ids assigned `1..count` in order (`main.cpp:171-188`; the source fixes
`count = NUM_STUDENTS`). -/
def build (count : Nat) (draws : List (ℚ × Nat)) : Option (List Student) :=
  build_aux count 1 draws

/-- Left-justified padding to a minimum width, as `{:<{}}` formatting. -/
def padRight (s : String) (w : Nat) : String :=
  s ++ String.mk (List.replicate (w - s.length) ' ')

/-- A run of `n` copies of one character, as `std::string(n, c)`. -/
def repChar (c : Char) (n : Nat) : String :=
  String.mk (List.replicate n c)

/-- Fixed-point decimal rendering of a rational, as `{:.Nf}` on a double
whose value is that rational: the digits of `q · 10^decimals` rounded to
the nearest integer (halves up), computed on the reduced fraction
`q.num / q.den` so `⌊q·10^d + 1/2⌋ = ⌊(2·num·10^d + den) / (2·den)⌋`. -/
def fmtFixed (decimals : Nat) (q : ℚ) : String :=
  let p : Int := (10 : Int) ^ decimals
  let n : Int := Int.fdiv (2 * q.num * p + (q.den : Int)) (2 * (q.den : Int))
  let sign := if n < 0 then "-" else ""
  let m : Nat := n.natAbs
  let pn : Nat := 10 ^ decimals
  let fpStr := toString (m % pn)
  sign ++ toString (m / pn) ++ "." ++
    String.mk (List.replicate (decimals - fpStr.length) '0') ++ fpStr

/-- `print_student_table` (`main.cpp:60-89`): title line, column header,
separator, one row per student, closing rule, then (when
`print_summary_count`) the count line and, at count zero, the
no-students-met-criteria note, then a blank line. -/
def print_student_table (list_title : String) (student_range : List Student)
    (print_summary_count : Bool) : List String :=
  let W_ID : Nat := 10
  let W_SCORE : Nat := 12
  let TABLE_WIDTH : Nat := W_ID + W_SCORE + 7
  (("--- " ++ list_title ++ " ---") ::
    ("| " ++ padRight "Student ID" W_ID ++ " | " ++ padRight "Score" W_SCORE ++ " |") ::
    ("|" ++ repChar '-' (W_ID + 2) ++ "|" ++ repChar '-' (W_SCORE + 2) ++ "|") ::
    student_range.map (fun s =>
      "| " ++ padRight (toString s.id) W_ID ++ " | " ++
        padRight (fmtFixed 2 s.score) W_SCORE ++ " |")) ++
  [repChar '-' TABLE_WIDTH] ++
  (if print_summary_count then
    ("Total matching students: " ++ toString student_range.length) ::
      (if student_range.length = 0 then
        ["(No students met the criteria for this list)"]
      else [])
  else []) ++
  [""]

/-- `struct ProcessingStep` (`main.cpp:93-96`): a title plus a core logic
taking the mutable collection; the logic returns the updated collection
and the lines it printed. -/
structure ProcessingStep where
  main_title : String
  core_logic : List Student → List Student × List String

/-- `execute_processing_step` (`main.cpp:99-111`): print the section
header, and when the collection is empty and the title is not the literal
"(Hypothetical Static Step)", skip the body and print the fixed
no-data notice instead. -/
def execute_processing_step (step : ProcessingStep) (data : List Student) :
    List Student × List String :=
  let header := "\n========== " ++ step.main_title ++ " =========="
  if data = [] ∧ step.main_title ≠ "(Hypothetical Static Step)" then
    (data, [header, "--- No student data available to process for this step ---", ""])
  else
    ((step.core_logic data).1, header :: (step.core_logic data).2)

/-- `make_filter_print_step` (`main.cpp:116-133`): the core logic filters a
read-only view of the data and renders the table; it returns the data
unchanged. -/
def make_filter_print_step (main_title list_title : String)
    (filter : Student → Bool) (print_summary : Bool) : ProcessingStep :=
  { main_title := main_title
    core_logic := fun data =>
      (data, print_student_table list_title (data.filter filter) print_summary) }

/-- `make_action_step` (`main.cpp:136-145`): the provided action is the
core logic directly. -/
def make_action_step (main_title : String)
    (action : List Student → List Student × List String) : ProcessingStep :=
  { main_title := main_title, core_logic := action }

/-- `make_custom_logic_step` (`main.cpp:148-161`): the logic reads the data
by const reference, so the collection passes through unchanged. -/
def make_custom_logic_step (main_title : String)
    (logic : List Student → List String) : ProcessingStep :=
  { main_title := main_title
    core_logic := fun data => (data, logic data) }

/-- Step 1 predicate (`main.cpp:202`): `s.score > EXCELLENT_THRESHOLD`. -/
def excellent_filter (s : Student) : Bool :=
  decide (EXCELLENT_THRESHOLD < s.score)

/-- Step 2 predicate (`main.cpp:210`): `s.score < PASS_THRESHOLD`. -/
def failing_filter (s : Student) : Bool :=
  decide (s.score < PASS_THRESHOLD)

/-- Step 1 (`main.cpp:199-204`). -/
def step1 : ProcessingStep :=
  make_filter_print_step "(1) Filter: Excellent Students"
    ("List: Score > " ++ fmtFixed 1 EXCELLENT_THRESHOLD) excellent_filter true

/-- Step 2 (`main.cpp:207-212`). -/
def step2 : ProcessingStep :=
  make_filter_print_step "(2) Filter: Failing Students"
    ("List: Score < " ++ fmtFixed 1 PASS_THRESHOLD) failing_filter true

/-- The accumulate over scores in step 3 (`main.cpp:230-231`). -/
def sum_of_scores (data : List Student) : ℚ :=
  data.foldl (fun current_sum s => current_sum + s.score) 0

/-- The average in step 3 (`main.cpp:233`). -/
def average_score (data : List Student) : ℚ :=
  sum_of_scores data / (data.length : ℚ)

/-- The above-average filtered view in step 3 (`main.cpp:242`):
`s.score >= average_score`. -/
def above_average (data : List Student) : List Student :=
  data.filter (fun s => decide (average_score data ≤ s.score))

/-- The step 3 analysis lambda (`main.cpp:217-246`): explicit empty-data
branch printing N/A, otherwise statistics then the above-average table. -/
def step3_logic (data : List Student) : List String :=
  if data = [] then
    ["--- Statistics ---", "Number of students analyzed: 0",
      "Calculated Average Score: N/A", "--------------------"] ++
    print_student_table "List: Scoring >= Average (N/A)" [] true
  else
    ["--- Statistics ---",
      "Number of students analyzed: " ++ toString data.length,
      "Calculated Average Score: " ++ fmtFixed 2 (average_score data),
      "--------------------"] ++
    print_student_table
      ("List: Scoring >= Average (" ++ fmtFixed 2 (average_score data) ++ ")")
      (above_average data) true

/-- Step 3 (`main.cpp:215-247`). -/
def step3 : ProcessingStep :=
  make_custom_logic_step "(3) Calculate & Filter: Above Average" step3_logic

/-- The ordering of `std::ranges::sort(v, std::greater, score)`: `a` may
precede `b` when `b.score ≤ a.score`. -/
def studentGE (a b : Student) : Prop := b.score ≤ a.score

instance : DecidableRel studentGE :=
  fun a b => inferInstanceAs (Decidable (b.score ≤ a.score))

instance : IsTotal Student studentGE :=
  ⟨fun a b => le_total b.score a.score⟩

instance : IsTrans Student studentGE :=
  ⟨fun _ _ _ h1 h2 => le_trans h2 h1⟩

/-- The in-place descending sort of step 4 (`main.cpp:255`). `std::sort`
promises a reordering sorted by the comparator and leaves tie order
unspecified; insertion sort realises exactly such a reordering. -/
def sortByScoreDesc (data : List Student) : List Student :=
  List.insertionSort studentGE data

/-- The step 4 action lambda (`main.cpp:252-264`): sort descending in
place, then render the whole collection without a summary count. -/
def step4_action (data : List Student) : List Student × List String :=
  let sorted := sortByScoreDesc data
  (sorted,
    ["--- Sorting Data by Score (Descending)... ---",
      "--- Data Sorted Successfully ---", ""] ++
    print_student_table "List: All Students (Sorted by Score Descending)" sorted false)

/-- Step 4 (`main.cpp:250-265`). -/
def step4 : ProcessingStep :=
  make_action_step "(4) Action & View: Sort All and Print" step4_action

/-- The configured pipeline (`main.cpp:196-266`). -/
def processing_steps : List ProcessingStep := [step1, step2, step3, step4]

/-- The step loop of `main` (`main.cpp:268-270`): execute each step in
order against the shared collection, threading the state. -/
def run_pipeline (steps : List ProcessingStep) (data : List Student) :
    List Student × List String :=
  match steps with
  | [] => (data, [])
  | step :: rest =>
    let r := execute_processing_step step data
    let r2 := run_pipeline rest r.1
    (r2.1, r.2 ++ r2.2)

/-- The trace of collection states of the step loop: entry `i` is the
collection `execute_processing_step` receives for step `i`, and the final
entry is the collection after the last step. -/
def pipeline_states (steps : List ProcessingStep) (data : List Student) :
    List (List Student) :=
  match steps with
  | [] => [data]
  | step :: rest => data :: pipeline_states rest (execute_processing_step step data).1

/-! Helper lemmas about the generator and builder. -/

/-- A successful generation carries the requested id and an in-range score. -/
theorem generate_ok_inv (student_id : Int) (sc : ℚ) (err : Nat) (s : Student)
    (h : generate_single_student student_id sc err = Except.ok s) :
    s.id = student_id ∧ MIN_SCORE ≤ s.score ∧ s.score ≤ MAX_SCORE := by
  unfold generate_single_student at h
  by_cases h1 : err = 1
  · rw [if_pos h1] at h
    exact absurd h (by simp)
  · rw [if_neg h1] at h
    by_cases h2 : sc < MIN_SCORE ∨ sc > MAX_SCORE
    · rw [if_pos h2] at h
      exact absurd h (by simp)
    · rw [if_neg h2] at h
      injection h with h3
      subst h3
      push_neg at h2
      exact ⟨rfl, h2.1, h2.2⟩

/-- The retry loop only ever returns a successfully generated student. -/
theorem retry_generate_ok (target_id : Int) :
    ∀ (draws rest : List (ℚ × Nat)) (s : Student),
    retry_generate target_id draws = some (s, rest) →
    s.id = target_id ∧ MIN_SCORE ≤ s.score ∧ s.score ≤ MAX_SCORE := by
  intro draws
  induction draws with
  | nil => intro rest s h; exact absurd h (by simp [retry_generate])
  | cons d ds ih =>
    intro rest s h
    unfold retry_generate at h
    cases hg : generate_single_student target_id d.1 d.2 with
    | ok st =>
      rw [hg] at h
      simp only [Option.some.injEq, Prod.mk.injEq] at h
      obtain ⟨h1, _⟩ := h
      subst h1
      exact generate_ok_inv target_id d.1 d.2 st hg
    | error e =>
      rw [hg] at h
      exact ih rest s h

/-- The generation loop, started at id `k` with `n` students to produce,
yields ids `k, k+1, ..., k+n-1` in order with in-range scores. -/
theorem build_aux_ok (n : Nat) :
    ∀ (k : Int) (draws : List (ℚ × Nat)) (l : List Student),
    build_aux n k draws = some l →
    l.map Student.id = (List.range n).map (fun i : Nat => k + (i : Int)) ∧
    ∀ s ∈ l, MIN_SCORE ≤ s.score ∧ s.score ≤ MAX_SCORE := by
  induction n with
  | zero =>
    intro k draws l h
    simp only [build_aux, Option.some.injEq] at h
    subst h
    simp
  | succ n ih =>
    intro k draws l h
    unfold build_aux at h
    split at h
    · exact absurd h (by simp)
    next s rest hr =>
      split at h
      · exact absurd h (by simp)
      next tl hb =>
        simp only [Option.some.injEq] at h
        subst h
        obtain ⟨hid, hlo, hhi⟩ := retry_generate_ok k draws rest s hr
        obtain ⟨hmap, hall⟩ := ih (k + 1) rest tl hb
        constructor
        · rw [List.range_succ_eq_map, List.map_cons, List.map_cons,
            List.map_map, hid, hmap]
          simp only [Nat.cast_zero, add_zero]
          congr 1
          apply List.map_congr_left
          intro i _
          simp only [Function.comp_apply]
          push_cast
          ring
        · intro x hx
          rcases List.mem_cons.mp hx with hx | hx
          · subst hx; exact ⟨hlo, hhi⟩
          · exact hall x hx

/-! The claims. -/

/-- Claim C1: for every count, whenever the generation loop driven with
that count returns a dataset, it is a sequence of exactly `count` students
whose ids are exactly `1..count` in strictly increasing order with no gaps
or duplicates, and every score lies in the closed range
`[MIN_SCORE, MAX_SCORE] = [0, 100]`. -/
theorem build_count_ids_scores (count : Nat) (draws : List (ℚ × Nat))
    (students : List Student) (h : build count draws = some students) :
    students.length = count ∧
    students.map Student.id = (List.range count).map (fun i : Nat => (i : Int) + 1) ∧
    ∀ s ∈ students, MIN_SCORE ≤ s.score ∧ s.score ≤ MAX_SCORE := by
  obtain ⟨hmap, hall⟩ := build_aux_ok count 1 draws students h
  refine ⟨?_, ?_, hall⟩
  · have hlen := congrArg List.length hmap
    simpa using hlen
  · rw [hmap]
    apply List.map_congr_left
    intro i _
    ring

/-- Witness for C1 at count 2 with a draw list exercising both failure
kinds: an out-of-range score, then a fault injection, then successes. -/
theorem build_count_ids_scores_witness :
    build 2 [(50, 2), (1000, 2), (-5, 3), (70, 1), (70, 2)] =
      some [⟨1, 50⟩, ⟨2, 70⟩] ∧
    (([⟨1, 50⟩, ⟨2, 70⟩] : List Student).length = 2 ∧
      ([⟨1, 50⟩, ⟨2, 70⟩] : List Student).map Student.id =
        (List.range 2).map (fun i : Nat => (i : Int) + 1) ∧
      ∀ s ∈ ([⟨1, 50⟩, ⟨2, 70⟩] : List Student),
        MIN_SCORE ≤ s.score ∧ s.score ≤ MAX_SCORE) :=
  ⟨by decide,
    build_count_ids_scores 2 [(50, 2), (1000, 2), (-5, 3), (70, 1), (70, 2)]
      [⟨1, 50⟩, ⟨2, 70⟩] (by decide)⟩

/-- Claim C2: the generator returns the injected error whenever the fault
draw triggers (`error_draw = 1`), regardless of the score; otherwise it
returns the out-of-range error exactly when the drawn score falls outside
`[MIN_SCORE, MAX_SCORE]`; otherwise it returns the student with the given
id and the drawn score unmodified. -/
theorem generate_single_student_cases (student_id : Int) (sc : ℚ) (err : Nat) :
    (err = 1 → generate_single_student student_id sc err =
      Except.error GenerationError.injected) ∧
    (err ≠ 1 →
      (generate_single_student student_id sc err =
          Except.error (GenerationError.outOfRange sc MIN_SCORE MAX_SCORE) ↔
        (sc < MIN_SCORE ∨ sc > MAX_SCORE))) ∧
    (err ≠ 1 → ¬(sc < MIN_SCORE ∨ sc > MAX_SCORE) →
      generate_single_student student_id sc err =
        Except.ok { id := student_id, score := sc }) := by
  unfold generate_single_student
  refine ⟨fun h1 => by rw [if_pos h1], fun h1 => ?_, fun h1 h2 => ?_⟩
  · rw [if_neg h1]
    by_cases h2 : sc < MIN_SCORE ∨ sc > MAX_SCORE
    · rw [if_pos h2]
      simp [h2]
    · rw [if_neg h2]
      simp [h2]
  · rw [if_neg h1, if_neg h2]

/-- Witness for C2: all three branches exercised at concrete draws. -/
theorem generate_single_student_cases_witness :
    generate_single_student 7 50 1 = Except.error GenerationError.injected ∧
    (generate_single_student 7 200 2 =
        Except.error (GenerationError.outOfRange 200 MIN_SCORE MAX_SCORE) ↔
      ((200 : ℚ) < MIN_SCORE ∨ (200 : ℚ) > MAX_SCORE)) ∧
    generate_single_student 7 50 2 = Except.ok { id := 7, score := 50 } :=
  ⟨(generate_single_student_cases 7 50 1).1 rfl,
    (generate_single_student_cases 7 200 2).2.1 (by decide),
    (generate_single_student_cases 7 50 2).2.2 (by decide) (by decide)⟩

/-- Claim C3: the Executor invokes a step's body exactly when the
collection is non-empty or the step's title equals the literal
"(Hypothetical Static Step)"; when it skips it emits the fixed
no-data notice instead. -/
theorem execute_processing_step_guard (step : ProcessingStep) (data : List Student) :
    ((data ≠ [] ∨ step.main_title = "(Hypothetical Static Step)") →
      execute_processing_step step data =
        ((step.core_logic data).1,
          ("\n========== " ++ step.main_title ++ " ==========") ::
            (step.core_logic data).2)) ∧
    (data = [] ∧ step.main_title ≠ "(Hypothetical Static Step)" →
      execute_processing_step step data =
        (data, ["\n========== " ++ step.main_title ++ " ==========",
          "--- No student data available to process for this step ---", ""])) := by
  unfold execute_processing_step
  constructor
  · intro h
    have hninv : ¬(data = [] ∧ step.main_title ≠ "(Hypothetical Static Step)") := by
      rcases h with h | h
      · exact fun hc => h hc.1
      · exact fun hc => hc.2 h
    rw [if_neg hninv]
  · intro h
    rw [if_pos h]

/-- Witness for C3: with a non-empty collection the configured sort step's
body runs. -/
theorem execute_processing_step_guard_witness :
    execute_processing_step step4 [⟨1, 50⟩] =
      ((step4.core_logic [⟨1, 50⟩]).1,
        ("\n========== " ++ step4.main_title ++ " ==========") ::
          (step4.core_logic [⟨1, 50⟩]).2) :=
  (execute_processing_step_guard step4 [⟨1, 50⟩]).1 (Or.inl (by decide))

/-- Counterexample to C4 as stated: the Mutation sort step's body, run on
an empty collection, does not render the "no students met the criteria"
note, because it passes `print_summary_count = false` to the renderer. -/
theorem mutation_step_empty_renders_no_note :
    "(No students met the criteria for this list)" ∉ (step4_action []).2 := by
  decide

/-- Claim C4 (amended): when its body is invoked on an empty collection,
each Filter+Report step renders a table with zero rows and the
"no students met the criteria" note; the Mutation sort step renders a
table with zero rows but no count line and no note (it passes
`show_count = false`); none errs or divides by zero; and the
custom-analysis step reports "Average Score: N/A" with zero students
analyzed. -/
theorem empty_collection_step_outputs :
    (step1.core_logic []).1 = [] ∧
    (step1.core_logic []).2 =
      ["--- List: Score > 85.0 ---", "| Student ID | Score        |",
        "|------------|--------------|", "-----------------------------",
        "Total matching students: 0",
        "(No students met the criteria for this list)", ""] ∧
    (step2.core_logic []).1 = [] ∧
    (step2.core_logic []).2 =
      ["--- List: Score < 60.0 ---", "| Student ID | Score        |",
        "|------------|--------------|", "-----------------------------",
        "Total matching students: 0",
        "(No students met the criteria for this list)", ""] ∧
    step3_logic [] =
      ["--- Statistics ---", "Number of students analyzed: 0",
        "Calculated Average Score: N/A", "--------------------",
        "--- List: Scoring >= Average (N/A) ---", "| Student ID | Score        |",
        "|------------|--------------|", "-----------------------------",
        "Total matching students: 0",
        "(No students met the criteria for this list)", ""] ∧
    (step4_action []).1 = [] ∧
    (step4_action []).2 =
      ["--- Sorting Data by Score (Descending)... ---",
        "--- Data Sorted Successfully ---", "",
        "--- List: All Students (Sorted by Score Descending) ---",
        "| Student ID | Score        |", "|------------|--------------|",
        "-----------------------------", ""] := by
  decide

/-- Claim C5: the Mutation sort step reorders the collection in place by
descending score (a permutation sorted under `studentGE`); applied to
`[{1,50},{2,90},{3,70}]` it yields `[{2,90},{3,70},{1,50}]`, and that
order is the collection state the run leaves behind after the configured
pipeline (the sort step is its last step). -/
theorem sort_step_descending_persists (data : List Student) :
    (step4_action data).1 = sortByScoreDesc data ∧
    (sortByScoreDesc data).Perm data ∧
    List.Sorted studentGE (sortByScoreDesc data) ∧
    sortByScoreDesc [⟨1, 50⟩, ⟨2, 90⟩, ⟨3, 70⟩] = [⟨2, 90⟩, ⟨3, 70⟩, ⟨1, 50⟩] ∧
    (run_pipeline processing_steps [⟨1, 50⟩, ⟨2, 90⟩, ⟨3, 70⟩]).1 =
      [⟨2, 90⟩, ⟨3, 70⟩, ⟨1, 50⟩] :=
  ⟨rfl, List.perm_insertionSort studentGE data,
    List.sorted_insertionSort studentGE data, by decide, by decide⟩

/-- Claim C6: the custom-analysis step's average over `[{1,60},{2,80}]` is
exactly 70 (rendered "70.00"), and its above-average filtered list for
that input is exactly `[{2,80}]`. -/
theorem average_and_above_average_concrete :
    average_score [⟨1, 60⟩, ⟨2, 80⟩] = 70 ∧
    fmtFixed 2 (average_score [⟨1, 60⟩, ⟨2, 80⟩]) = "70.00" ∧
    above_average [⟨1, 60⟩, ⟨2, 80⟩] = [⟨2, 80⟩] := by
  have havg : average_score [⟨1, 60⟩, ⟨2, 80⟩] = 70 := by
    norm_num [average_score, sum_of_scores]
  refine ⟨havg, ?_, ?_⟩
  · rw [havg]
    decide
  · norm_num [above_average, average_score, sum_of_scores, List.filter]

/-- Claim C8: a Filter+Report step never changes the collection: for every
predicate and collection, the collection after its body (and after the
Executor runs it) is the one before, element for element. -/
theorem filter_step_preserves_collection (main_title list_title : String)
    (filter : Student → Bool) (print_summary : Bool) (data : List Student) :
    ((make_filter_print_step main_title list_title filter print_summary).core_logic
        data).1 = data ∧
    (execute_processing_step
        (make_filter_print_step main_title list_title filter print_summary) data).1
      = data := by
  refine ⟨rfl, ?_⟩
  unfold execute_processing_step
  split
  · rfl
  · rfl

/-- Claim C10: the configured filter thresholds are exclusive: a student
scoring exactly 85 fails the excellent predicate and one scoring exactly
60 fails the failing predicate, so either student appears in neither
filtered list. -/
theorem threshold_boundaries_exclusive (s : Student) (data : List Student)
    (h : s.score = 85 ∨ s.score = 60) :
    excellent_filter s = false ∧ failing_filter s = false ∧
    s ∉ data.filter excellent_filter ∧ s ∉ data.filter failing_filter := by
  have he : excellent_filter s = false := by
    rcases h with h | h <;> simp only [excellent_filter, h] <;> decide
  have hf : failing_filter s = false := by
    rcases h with h | h <;> simp only [failing_filter, h] <;> decide
  refine ⟨he, hf, ?_, ?_⟩
  · intro hm
    have := (List.mem_filter.mp hm).2
    rw [he] at this
    exact Bool.false_ne_true this
  · intro hm
    have := (List.mem_filter.mp hm).2
    rw [hf] at this
    exact Bool.false_ne_true this

/-- Witness for C10: a student scoring exactly 85, inside a collection,
appears in neither filtered list. -/
theorem threshold_boundaries_exclusive_witness :
    excellent_filter ⟨1, 85⟩ = false ∧ failing_filter ⟨1, 85⟩ = false ∧
    (⟨1, 85⟩ : Student) ∉ List.filter excellent_filter [⟨1, 85⟩, ⟨2, 90⟩] ∧
    (⟨1, 85⟩ : Student) ∉ List.filter failing_filter [⟨1, 85⟩, ⟨2, 90⟩] :=
  threshold_boundaries_exclusive ⟨1, 85⟩ [⟨1, 85⟩, ⟨2, 90⟩] (Or.inl rfl)

/-- The state trace of a pipeline run is never empty. -/
theorem pipeline_states_ne_nil (steps : List ProcessingStep) (data : List Student) :
    pipeline_states steps data ≠ [] := by
  cases steps <;> simp [pipeline_states]

/-- Claim C7: the Executor runs the steps strictly in sequence order: the
state trace has one entry per step plus the final state, it starts at the
initial collection, the collection step `i + 1` observes is exactly the
collection left by executing step `i` on what step `i` observed, and the
run's final collection is the trace's last entry. -/
theorem run_pipeline_order (steps : List ProcessingStep) (data : List Student) :
    (pipeline_states steps data).length = steps.length + 1 ∧
    (pipeline_states steps data).head? = some data ∧
    (∀ (i : Nat) (step : ProcessingStep) (st : List Student),
      steps[i]? = some step →
      (pipeline_states steps data)[i]? = some st →
      (pipeline_states steps data)[i + 1]? =
        some (execute_processing_step step st).1) ∧
    (run_pipeline steps data).1 = (pipeline_states steps data).getLastD [] := by
  induction steps generalizing data with
  | nil =>
    refine ⟨rfl, rfl, ?_, rfl⟩
    intro i step st h1 _
    simp at h1
  | cons s rest ih =>
    obtain ⟨ihlen, ihhead, ihstep, ihlast⟩ := ih (execute_processing_step s data).1
    have hc : pipeline_states (s :: rest) data =
        data :: pipeline_states rest (execute_processing_step s data).1 := rfl
    refine ⟨?_, ?_, ?_, ?_⟩
    · rw [hc]
      simp [ihlen]
    · rw [hc]
      rfl
    · intro i step st h1 h2
      rw [hc] at h2 ⊢
      cases i with
      | zero =>
        simp only [List.getElem?_cons_zero, Option.some.injEq] at h1 h2
        subst h1
        subst h2
        rw [List.getElem?_cons_succ]
        cases hrest : rest <;> simp [pipeline_states]
      | succ n =>
        rw [List.getElem?_cons_succ] at h1 h2 ⊢
        exact ihstep n step st h1 h2
    · have hr : (run_pipeline (s :: rest) data).1 =
          (run_pipeline rest (execute_processing_step s data).1).1 := rfl
      rw [hr, ihlast, hc]
      have hne := pipeline_states_ne_nil rest (execute_processing_step s data).1
      cases hq : pipeline_states rest (execute_processing_step s data).1 with
      | nil => exact absurd hq hne
      | cons a t => simp [List.getLastD_cons]

/-- Witness for C7: in a one-step pipeline starting from a singleton
collection, the state after the step is the result of executing it on the
initial collection. -/
theorem run_pipeline_order_witness :
    (pipeline_states [step4] [⟨1, 50⟩])[0 + 1]? =
      some (execute_processing_step step4 [⟨1, 50⟩]).1 :=
  (run_pipeline_order [step4] [⟨1, 50⟩]).2.2.1 0 step4 [⟨1, 50⟩] rfl rfl

/-- Claim C9: a non-designated step leaves an empty collection empty, so
once the collection is empty it stays empty for the rest of any pipeline
with no "(Hypothetical Static Step)"-titled step; in particular the
configured pipeline run from an empty collection ends empty with every
step skipped (its output is exactly the four header-and-notice blocks). -/
theorem empty_collection_stays_empty :
    (∀ step : ProcessingStep, step.main_title ≠ "(Hypothetical Static Step)" →
      (execute_processing_step step []).1 = []) ∧
    (∀ steps : List ProcessingStep,
      (∀ step ∈ steps, step.main_title ≠ "(Hypothetical Static Step)") →
      (run_pipeline steps []).1 = []) ∧
    (run_pipeline processing_steps []).1 = [] ∧
    (run_pipeline processing_steps []).2 =
      ["\n========== (1) Filter: Excellent Students ==========",
        "--- No student data available to process for this step ---", "",
        "\n========== (2) Filter: Failing Students ==========",
        "--- No student data available to process for this step ---", "",
        "\n========== (3) Calculate & Filter: Above Average ==========",
        "--- No student data available to process for this step ---", "",
        "\n========== (4) Action & View: Sort All and Print ==========",
        "--- No student data available to process for this step ---", ""] := by
  have hstep : ∀ step : ProcessingStep,
      step.main_title ≠ "(Hypothetical Static Step)" →
      (execute_processing_step step []).1 = [] := by
    intro step h
    unfold execute_processing_step
    rw [if_pos ⟨rfl, h⟩]
  have hrun : ∀ steps : List ProcessingStep,
      (∀ step ∈ steps, step.main_title ≠ "(Hypothetical Static Step)") →
      (run_pipeline steps []).1 = [] := by
    intro steps
    induction steps with
    | nil => intro _; rfl
    | cons s rest ih =>
      intro h
      have h1 : (execute_processing_step s []).1 = [] :=
        hstep s (h s (List.mem_cons_self s rest))
      have h2 : (run_pipeline (s :: rest) []).1 =
          (run_pipeline rest (execute_processing_step s []).1).1 := rfl
      rw [h2, h1]
      exact ih (fun step hm => h step (List.mem_cons_of_mem s hm))
  exact ⟨hstep, hrun, by decide, by decide⟩

/-- Witness for C9 on the configured first step and a one-step pipeline. -/
theorem empty_collection_stays_empty_witness :
    (execute_processing_step step1 []).1 = [] ∧ (run_pipeline [step1] []).1 = [] :=
  ⟨empty_collection_stays_empty.1 step1 (by decide),
    empty_collection_stays_empty.2.1 [step1] (by decide)⟩

end Problem1
